import Mathlib

/-!
Shallow embedding of `src/applet.py` (tmux-psutil-applet), a single-shot
status probe: it samples CPU, memory, swap and disk utilization, classifies
each against warn/crit thresholds, reduces the four results to the single
most severe one, and prints one color-coded line for a tmux status bar.

Python floats are modelled as rationals (`ℚ`): every comparison the program
performs is exact on the stored values, and `toString : ℚ → String` stands
for Python's number rendering inside `str.format`.  The external collaborator
(`psutil`) is modelled as a record of sampled values passed to `main`.
-/

namespace Applet

/- Threshold and color constants, applet.py lines 9-30. -/

def CPU_USAGE_WARN : ℚ := 80
def CPU_USAGE_CRIT : ℚ := 90

def MEMORY_USAGE_WARN : ℚ := 80
def MEMORY_USAGE_CRIT : ℚ := 90

def DISK_USAGE_WARN : ℚ := 70
def DISK_USAGE_CRIT : ℚ := 90

def SWAP_USAGE_WARN : ℚ := 20
def SWAP_USAGE_CRIT : ℚ := 50

def FG_COLOR_OK : Nat := 17
def BG_COLOR_OK : Nat := 190
def FG_COLOR_WARN : Nat := 0
def BG_COLOR_WARN : Nat := 220
def FG_COLOR_CRIT : Nat := 255
def BG_COLOR_CRIT : Nat := 196

/-- `StatusCode` enum, applet.py lines 32-39. -/
inductive StatusCode where
  | OK
  | WARNING
  | CRITICAL
  | UNKNOWN
deriving DecidableEq, Repr

/-- `Status` value, applet.py lines 47-56: a severity code plus a text. -/
structure Status where
  code : StatusCode
  text : String
deriving DecidableEq, Repr

/-- The sampled values obtained from the external `psutil` collaborator:
`cpu_percent(interval=1)`, `virtual_memory().percent`, `swap_memory().percent`,
and the mountpoints of `disk_partitions()` each paired with
`disk_usage(mountpoint).percent` (the source composes these two queries when
building `disks_datas`). -/
structure Psutil where
  cpu_percent : ℚ
  virtual_memory_percent : ℚ
  swap_memory_percent : ℚ
  disk_partitions : List (String × ℚ)
deriving DecidableEq, Repr

/-- `check_cpu_usage`, applet.py lines 59-70.  The sampled `usage` is the
value of `psutil.cpu_percent(interval=1)`, passed in explicitly. -/
def check_cpu_usage (warn crit usage : ℚ) : Status :=
  if usage > crit then
    Status.mk StatusCode.CRITICAL ("CPU: " ++ toString usage ++ "%")
  else if usage > warn then
    Status.mk StatusCode.WARNING ("CPU: " ++ toString usage ++ "%")
  else
    Status.mk StatusCode.OK ("CPU: " ++ toString usage ++ "%")

/-- `check_cpu_usage` invoked with its default arguments
`warn=CPU_USAGE_WARN, crit=CPU_USAGE_CRIT`. -/
def check_cpu_usage_defaults (usage : ℚ) : Status :=
  check_cpu_usage CPU_USAGE_WARN CPU_USAGE_CRIT usage

/-- The `disks_criticals` list of `check_disk_usage`, applet.py lines 82-86:
entries of `disks_datas` whose usage (second component) is `> crit`,
in enumeration order. -/
def disks_criticals (crit : ℚ) (disks_datas : List (String × ℚ)) :
    List (String × ℚ) :=
  disks_datas.filter (fun disk_data => decide (disk_data.2 > crit))

/-- The `disks_warnings` list of `check_disk_usage`, applet.py lines 87-90:
entries whose usage is `> warn` and `< crit`, in enumeration order. -/
def disks_warnings (warn crit : ℚ) (disks_datas : List (String × ℚ)) :
    List (String × ℚ) :=
  disks_datas.filter
    (fun disk_data => decide (disk_data.2 > warn ∧ disk_data.2 < crit))

/-- `check_disk_usage`, applet.py lines 72-109.  `disks_datas` is the list
`[(disk.mountpoint, psutil.disk_usage(disk.mountpoint).percent) for disk in
psutil.disk_partitions()]`, passed in explicitly.  The source indexes
`disks_criticals[0]` / `disks_warnings[0]` only under `len(...) > 0` guards,
which the `match` mirrors. -/
def check_disk_usage (warn crit : ℚ) (disks_datas : List (String × ℚ)) :
    Status :=
  match disks_criticals crit disks_datas with
  | d :: _ =>
      Status.mk StatusCode.CRITICAL
        ("Disk " ++ d.1 ++ ": " ++ toString d.2 ++ "%")
  | [] =>
      match disks_warnings warn crit disks_datas with
      | d :: _ =>
          Status.mk StatusCode.WARNING
            ("Disk " ++ d.1 ++ ": " ++ toString d.2 ++ "%")
      | [] => Status.mk StatusCode.OK "Disks OK"

/-- `check_disk_usage` invoked with its default arguments
`warn=DISK_USAGE_WARN, crit=DISK_USAGE_CRIT`. -/
def check_disk_usage_defaults (disks_datas : List (String × ℚ)) : Status :=
  check_disk_usage DISK_USAGE_WARN DISK_USAGE_CRIT disks_datas

/-- `check_memory_usage`, applet.py lines 111-122.  `usage` is
`psutil.virtual_memory().percent`. -/
def check_memory_usage (warn crit usage : ℚ) : Status :=
  if usage > crit then
    Status.mk StatusCode.CRITICAL ("Memory: " ++ toString usage ++ "%")
  else if usage > warn then
    Status.mk StatusCode.WARNING ("Memory: " ++ toString usage ++ "%")
  else
    Status.mk StatusCode.OK ("Memory: " ++ toString usage ++ "%")

/-- `check_memory_usage` invoked with its default arguments. -/
def check_memory_usage_defaults (usage : ℚ) : Status :=
  check_memory_usage MEMORY_USAGE_WARN MEMORY_USAGE_CRIT usage

/-- `check_swap_usage`, applet.py lines 124-135.  `usage` is
`psutil.swap_memory().percent`. -/
def check_swap_usage (warn crit usage : ℚ) : Status :=
  if usage > crit then
    Status.mk StatusCode.CRITICAL ("Swap: " ++ toString usage ++ "%")
  else if usage > warn then
    Status.mk StatusCode.WARNING ("Swap: " ++ toString usage ++ "%")
  else
    Status.mk StatusCode.OK ("Swap: " ++ toString usage ++ "%")

/-- `check_swap_usage` invoked with its default arguments. -/
def check_swap_usage_defaults (usage : ℚ) : Status :=
  check_swap_usage SWAP_USAGE_WARN SWAP_USAGE_CRIT usage

/- The output formatting of `main`, applet.py lines 165-173. -/

def lbrace : Char := Char.ofNat 123
def rbrace : Char := Char.ofNat 125

/-- Helper for `pyFormat`: split a character list at the first closing brace,
returning the field name before it and the remainder after it. -/
def scanField : List Char → List Char × List Char
  | [] => ([], [])
  | c :: rest =>
    if c = rbrace then ([], rest)
    else
      let p := scanField rest
      (c :: p.1, p.2)

/-- Recursive core of `pyFormat`.  The fuel argument (instantiated with the
string length, an upper bound on the number of steps since every step consumes
at least one character) only makes the recursion structural. -/
def pyFormatAux (kwargs : List (String × String)) : Nat → List Char → List Char
  | 0, _ => []
  | _, [] => []
  | fuel + 1, c :: rest =>
    if c = lbrace then
      let p := scanField rest
      ((kwargs.lookup (String.mk p.1)).getD "").toList ++
        pyFormatAux kwargs fuel p.2
    else
      c :: pyFormatAux kwargs fuel rest

/-- Python's `str.format` with keyword arguments, restricted to the feature
set exercised by the source: each `\x7bname\x7d` field is replaced by the value
bound to `name`.  No escaped braces, positional fields or format specs occur
in the source's literals; the one literal `.format` is applied to contains no
field at all. -/
def pyFormat (s : String) (kwargs : List (String × String)) : String :=
  String.mk (pyFormatAux kwargs s.length s.toList)

/-- The argument `main` passes to `print`, applet.py lines 166-172.  In the
source the expression is a sum of four string literals and, by operator
precedence, `.format(bg_color=..., fg_color=..., text=...)` is applied only to
the last literal `"#[fg=colour255,bg=colour238]"`; the first three literals
are concatenated verbatim, their fields never formatted. -/
def printed_line (bg_color fg_color : Nat) (text : String) : String :=
  "#[fg=colour\x7bbg_color\x7d,bg=colour238]" ++
  "#[fg=colour\x7bfg_color\x7d,bg=colour\x7bbg_color\x7d]" ++
  "\x7btext\x7d #[fg=colour238,bg=colour\x7bbg_color\x7d]" ++
  pyFormat "#[fg=colour255,bg=colour238]"
    [("bg_color", toString bg_color), ("fg_color", toString fg_color),
     ("text", text)]

/-- The string `main` actually prints on every run: the four literals
concatenated, fields unsubstituted (see `printed_line`). -/
def the_output_line : String :=
  "#[fg=colour\x7bbg_color\x7d,bg=colour238]#[fg=colour\x7bfg_color\x7d,bg=colour\x7bbg_color\x7d]\x7btext\x7d #[fg=colour238,bg=colour\x7bbg_color\x7d]#[fg=colour255,bg=colour238]"

/-- The `checks` list of `main`, applet.py lines 141-148: the four checkers
invoked with no arguments (hence with their default thresholds) in the fixed
order CPU, Memory, Disk, Swap. -/
def main_checks (psutil : Psutil) : List Status :=
  [check_cpu_usage_defaults psutil.cpu_percent,
   check_memory_usage_defaults psutil.virtual_memory_percent,
   check_disk_usage_defaults psutil.disk_partitions,
   check_swap_usage_defaults psutil.swap_memory_percent]

/-- The selection logic of `main`, applet.py lines 149-163, producing the
triple `(bg_color, fg_color, text)`.  The source indexes `[...][0]` only
under the corresponding `any(...)` guard, which guarantees the filtered list
is non-empty; `headD`'s fallback is unreachable there. -/
def main_select (checks : List Status) : Nat × Nat × String :=
  let have_criticals :=
    checks.any (fun e => decide (e.code = StatusCode.CRITICAL))
  let have_warnings :=
    checks.any (fun e => decide (e.code = StatusCode.WARNING))
  if have_criticals then
    (BG_COLOR_CRIT, FG_COLOR_CRIT,
     ((checks.filter (fun e => decide (e.code = StatusCode.CRITICAL))).map
        Status.text).headD "OK")
  else if have_warnings then
    (BG_COLOR_WARN, FG_COLOR_WARN,
     ((checks.filter (fun e => decide (e.code = StatusCode.WARNING))).map
        Status.text).headD "OK")
  else
    (BG_COLOR_OK, FG_COLOR_OK, "OK")

/-- The single line `main` writes to standard output, applet.py lines
137-173, as a function of the sampled metrics. -/
def main_line (psutil : Psutil) : String :=
  let checks := main_checks psutil
  let sel := main_select checks
  printed_line sel.1 sel.2.1 sel.2.2

/-- A full run of `main`: the list of strings passed to `print` (the source
contains exactly one `print` call and no other write to standard output) and
the process exit status (the script falls off the end of `main` and never
calls `sys.exit`, so a run in which all collaborator queries return normally
exits with status 0). -/
def main_run (psutil : Psutil) : List String × Nat :=
  ([main_line psutil], 0)

/- Spec-side definitions, used to state the claims' "first in order" and
"output template" wording independently of the implementation. -/

/-- Modelled from the spec (§4.3): the text of the first `Status` in
invocation order whose code is `c`. -/
def first_text_with_code (c : StatusCode) : List Status → Option String
  | [] => none
  | s :: rest => if s.code = c then some s.text else first_text_with_code c rest

/-- Modelled from the spec (§4.2): the first partition in enumeration order
whose usage is strictly above `crit`. -/
def first_disk_over (crit : ℚ) : List (String × ℚ) → Option (String × ℚ)
  | [] => none
  | d :: rest => if d.2 > crit then some d else first_disk_over crit rest

/-- Modelled from the spec (§4.2): the first partition in enumeration order
whose usage is strictly between `warn` and `crit`. -/
def first_disk_between (warn crit : ℚ) :
    List (String × ℚ) → Option (String × ℚ)
  | [] => none
  | d :: rest =>
    if warn < d.2 ∧ d.2 < crit then some d
    else first_disk_between warn crit rest

/-- Modelled from the spec (§6): the documented output template
`#[fg=colour\x7bfg\x7d,bg=colour238]#[fg=colour\x7bfg\x7d,bg=colour\x7bbg\x7d]\x7btext\x7d #[fg=colour238,bg=colour\x7bbg\x7d]#[fg=colour255,bg=colour238]`
with `\x7bfg\x7d`, `\x7bbg\x7d` and `\x7btext\x7d` substituted by the chosen
values. -/
def spec_output_line (fg bg : Nat) (text : String) : String :=
  "#[fg=colour" ++ toString fg ++ ",bg=colour238]" ++
  "#[fg=colour" ++ toString fg ++ ",bg=colour" ++ toString bg ++ "]" ++
  text ++ " #[fg=colour238,bg=colour" ++ toString bg ++ "]" ++
  "#[fg=colour255,bg=colour238]"

/-- The common shape of the three scalar checkers (same text in all three
branches); each checker is definitionally an instance of it. -/
def triStatus (t : String) (warn crit usage : ℚ) : Status :=
  if usage > crit then Status.mk StatusCode.CRITICAL t
  else if usage > warn then Status.mk StatusCode.WARNING t
  else Status.mk StatusCode.OK t

lemma check_cpu_eq_tri (warn crit usage : ℚ) :
    check_cpu_usage warn crit usage =
      triStatus ("CPU: " ++ toString usage ++ "%") warn crit usage := rfl

lemma check_memory_eq_tri (warn crit usage : ℚ) :
    check_memory_usage warn crit usage =
      triStatus ("Memory: " ++ toString usage ++ "%") warn crit usage := rfl

lemma check_swap_eq_tri (warn crit usage : ℚ) :
    check_swap_usage warn crit usage =
      triStatus ("Swap: " ++ toString usage ++ "%") warn crit usage := rfl

lemma triStatus_code_crit (t : String) (warn crit usage : ℚ) :
    (triStatus t warn crit usage).code = StatusCode.CRITICAL ↔ usage > crit := by
  unfold triStatus
  split_ifs with h1 h2
  · exact iff_of_true rfl h1
  · exact iff_of_false (by simp) h1
  · exact iff_of_false (by simp) h1

lemma triStatus_code_warn (t : String) (warn crit usage : ℚ) :
    (triStatus t warn crit usage).code = StatusCode.WARNING ↔
      warn < usage ∧ usage ≤ crit := by
  unfold triStatus
  split_ifs with h1 h2
  · exact iff_of_false (by simp) (fun hp => absurd h1 (not_lt.mpr hp.2))
  · exact iff_of_true rfl ⟨h2, not_lt.mp h1⟩
  · exact iff_of_false (by simp) (fun hp => h2 hp.1)

lemma triStatus_code_ok (t : String) (warn crit usage : ℚ)
    (hwc : warn < crit) :
    (triStatus t warn crit usage).code = StatusCode.OK ↔ usage ≤ warn := by
  unfold triStatus
  split_ifs with h1 h2
  · exact iff_of_false (by simp) (fun hp => by linarith)
  · exact iff_of_false (by simp) (fun hp => absurd h2 (not_lt.mpr hp))
  · exact iff_of_true rfl (not_lt.mp h2)

lemma triStatus_text (t : String) (warn crit usage : ℚ) :
    (triStatus t warn crit usage).text = t := by
  unfold triStatus
  split_ifs <;> rfl

lemma mem_disks_criticals (crit : ℚ) (dd : List (String × ℚ))
    (d : String × ℚ) :
    d ∈ disks_criticals crit dd ↔ d ∈ dd ∧ d.2 > crit := by
  simp [disks_criticals, List.mem_filter]

lemma mem_disks_warnings (warn crit : ℚ) (dd : List (String × ℚ))
    (d : String × ℚ) :
    d ∈ disks_warnings warn crit dd ↔ d ∈ dd ∧ warn < d.2 ∧ d.2 < crit := by
  simp [disks_warnings, List.mem_filter, and_assoc]

lemma first_disk_over_eq_head (crit : ℚ) (dd : List (String × ℚ)) :
    first_disk_over crit dd = (disks_criticals crit dd).head? := by
  induction dd with
  | nil => rfl
  | cons d rest ih =>
      by_cases hd : d.2 > crit
      · simp [first_disk_over, disks_criticals, List.filter_cons, hd]
      · simpa [first_disk_over, disks_criticals, List.filter_cons, hd] using ih

lemma first_disk_between_eq_head (warn crit : ℚ) (dd : List (String × ℚ)) :
    first_disk_between warn crit dd =
      (disks_warnings warn crit dd).head? := by
  induction dd with
  | nil => rfl
  | cons d rest ih =>
      by_cases hd : warn < d.2 ∧ d.2 < crit
      · simp [first_disk_between, disks_warnings, List.filter_cons, hd]
      · simpa [first_disk_between, disks_warnings, List.filter_cons, hd]
          using ih

lemma first_text_with_code_eq_head (c : StatusCode) (cs : List Status) :
    first_text_with_code c cs =
      ((cs.filter (fun e => decide (e.code = c))).map Status.text).head? := by
  induction cs with
  | nil => rfl
  | cons s rest ih =>
      by_cases hs : s.code = c
      · simp [first_text_with_code, List.filter_cons, hs]
      · simpa [first_text_with_code, List.filter_cons, hs] using ih

lemma any_code_iff (cs : List Status) (c : StatusCode) :
    (cs.any (fun e => decide (e.code = c)) = true) ↔ ∃ s ∈ cs, s.code = c := by
  simp [List.any_eq_true]

lemma printed_line_const (bg_color fg_color : Nat) (text : String) :
    printed_line bg_color fg_color text = the_output_line := rfl

lemma check_disk_usage_of_first_over (warn crit : ℚ) (dd : List (String × ℚ))
    (m : String) (u : ℚ) (h : first_disk_over crit dd = some (m, u)) :
    check_disk_usage warn crit dd =
      Status.mk StatusCode.CRITICAL
        ("Disk " ++ m ++ ": " ++ toString u ++ "%") := by
  rw [first_disk_over_eq_head] at h
  unfold check_disk_usage
  cases hc : disks_criticals crit dd with
  | nil => rw [hc] at h; simp at h
  | cons d rest =>
      rw [hc] at h
      simp only [List.head?_cons, Option.some.injEq] at h
      subst h
      rfl

lemma check_disk_usage_of_first_between (warn crit : ℚ)
    (dd : List (String × ℚ)) (m : String) (u : ℚ)
    (hnone : first_disk_over crit dd = none)
    (h : first_disk_between warn crit dd = some (m, u)) :
    check_disk_usage warn crit dd =
      Status.mk StatusCode.WARNING
        ("Disk " ++ m ++ ": " ++ toString u ++ "%") := by
  rw [first_disk_over_eq_head] at hnone
  rw [first_disk_between_eq_head] at h
  have hcnil : disks_criticals crit dd = [] := by
    cases hc : disks_criticals crit dd with
    | nil => rfl
    | cons d rest => rw [hc] at hnone; simp at hnone
  unfold check_disk_usage
  rw [hcnil]
  cases hw : disks_warnings warn crit dd with
  | nil => rw [hw] at h; simp at h
  | cons d rest =>
      rw [hw] at h
      simp only [List.head?_cons, Option.some.injEq] at h
      subst h
      rfl

lemma check_disk_usage_of_none_none (warn crit : ℚ)
    (dd : List (String × ℚ)) (hnone : first_disk_over crit dd = none)
    (hbet : first_disk_between warn crit dd = none) :
    check_disk_usage warn crit dd = Status.mk StatusCode.OK "Disks OK" := by
  rw [first_disk_over_eq_head] at hnone
  rw [first_disk_between_eq_head] at hbet
  have hcnil : disks_criticals crit dd = [] := by
    cases hc : disks_criticals crit dd with
    | nil => rfl
    | cons d rest => rw [hc] at hnone; simp at hnone
  have hwnil : disks_warnings warn crit dd = [] := by
    cases hw : disks_warnings warn crit dd with
    | nil => rfl
    | cons d rest => rw [hw] at hbet; simp at hbet
  unfold check_disk_usage
  rw [hcnil, hwnil]

lemma triStatus_code_cases (t : String) (warn crit usage : ℚ) :
    (triStatus t warn crit usage).code = StatusCode.OK ∨
    (triStatus t warn crit usage).code = StatusCode.WARNING ∨
    (triStatus t warn crit usage).code = StatusCode.CRITICAL := by
  unfold triStatus
  split_ifs <;> simp

lemma check_disk_code_cases (warn crit : ℚ) (dd : List (String × ℚ)) :
    (check_disk_usage warn crit dd).code = StatusCode.OK ∨
    (check_disk_usage warn crit dd).code = StatusCode.WARNING ∨
    (check_disk_usage warn crit dd).code = StatusCode.CRITICAL := by
  unfold check_disk_usage
  cases disks_criticals crit dd with
  | cons d rest => simp
  | nil =>
      cases disks_warnings warn crit dd with
      | cons d rest => simp
      | nil => simp

lemma triStatus_code_ne_unknown (t : String) (warn crit usage : ℚ) :
    (triStatus t warn crit usage).code ≠ StatusCode.UNKNOWN := by
  rcases triStatus_code_cases t warn crit usage with h | h | h <;> simp [h]

lemma check_disk_code_ne_unknown (warn crit : ℚ) (dd : List (String × ℚ)) :
    (check_disk_usage warn crit dd).code ≠ StatusCode.UNKNOWN := by
  rcases check_disk_code_cases warn crit dd with h | h | h <;> simp [h]

/-- C3: for every usage value `u` and thresholds `warn < crit`, each of the
CPU, memory and swap checkers returns CRITICAL iff `u > crit`, WARNING iff
`warn < u ≤ crit`, OK iff `u ≤ warn`; in particular `u = warn` yields OK and
`u = crit` yields WARNING, since both comparisons are strict; and in every
branch the text is `CPU: \x7bu\x7d%`, `Memory: \x7bu\x7d%` or
`Swap: \x7bu\x7d%` respectively. -/
theorem scalar_checkers_spec (warn crit usage : ℚ) (hwc : warn < crit) :
    (((check_cpu_usage warn crit usage).code = StatusCode.CRITICAL ↔
        usage > crit) ∧
     ((check_cpu_usage warn crit usage).code = StatusCode.WARNING ↔
        warn < usage ∧ usage ≤ crit) ∧
     ((check_cpu_usage warn crit usage).code = StatusCode.OK ↔
        usage ≤ warn) ∧
     (check_cpu_usage warn crit usage).text =
        "CPU: " ++ toString usage ++ "%") ∧
    (((check_memory_usage warn crit usage).code = StatusCode.CRITICAL ↔
        usage > crit) ∧
     ((check_memory_usage warn crit usage).code = StatusCode.WARNING ↔
        warn < usage ∧ usage ≤ crit) ∧
     ((check_memory_usage warn crit usage).code = StatusCode.OK ↔
        usage ≤ warn) ∧
     (check_memory_usage warn crit usage).text =
        "Memory: " ++ toString usage ++ "%") ∧
    (((check_swap_usage warn crit usage).code = StatusCode.CRITICAL ↔
        usage > crit) ∧
     ((check_swap_usage warn crit usage).code = StatusCode.WARNING ↔
        warn < usage ∧ usage ≤ crit) ∧
     ((check_swap_usage warn crit usage).code = StatusCode.OK ↔
        usage ≤ warn) ∧
     (check_swap_usage warn crit usage).text =
        "Swap: " ++ toString usage ++ "%") ∧
    ((check_cpu_usage warn crit warn).code = StatusCode.OK ∧
     (check_memory_usage warn crit warn).code = StatusCode.OK ∧
     (check_swap_usage warn crit warn).code = StatusCode.OK) ∧
    ((check_cpu_usage warn crit crit).code = StatusCode.WARNING ∧
     (check_memory_usage warn crit crit).code = StatusCode.WARNING ∧
     (check_swap_usage warn crit crit).code = StatusCode.WARNING) := by
  simp only [check_cpu_eq_tri, check_memory_eq_tri, check_swap_eq_tri]
  exact ⟨⟨triStatus_code_crit _ _ _ _, triStatus_code_warn _ _ _ _,
          triStatus_code_ok _ _ _ _ hwc, triStatus_text _ _ _ _⟩,
         ⟨triStatus_code_crit _ _ _ _, triStatus_code_warn _ _ _ _,
          triStatus_code_ok _ _ _ _ hwc, triStatus_text _ _ _ _⟩,
         ⟨triStatus_code_crit _ _ _ _, triStatus_code_warn _ _ _ _,
          triStatus_code_ok _ _ _ _ hwc, triStatus_text _ _ _ _⟩,
         ⟨(triStatus_code_ok _ _ _ _ hwc).mpr le_rfl,
          (triStatus_code_ok _ _ _ _ hwc).mpr le_rfl,
          (triStatus_code_ok _ _ _ _ hwc).mpr le_rfl⟩,
         ⟨(triStatus_code_warn _ _ _ _).mpr ⟨hwc, le_rfl⟩,
          (triStatus_code_warn _ _ _ _).mpr ⟨hwc, le_rfl⟩,
          (triStatus_code_warn _ _ _ _).mpr ⟨hwc, le_rfl⟩⟩⟩

/-- Witness for `scalar_checkers_spec` at the CPU defaults `warn=80`,
`crit=90` and concrete usages. -/
theorem scalar_checkers_spec_witness :
    (check_cpu_usage 80 90 95).code = StatusCode.CRITICAL ∧
    (check_memory_usage 80 90 85).code = StatusCode.WARNING ∧
    (check_swap_usage 20 50 10).code = StatusCode.OK := by
  have h1 := scalar_checkers_spec 80 90 95 (by norm_num)
  have h2 := scalar_checkers_spec 80 90 85 (by norm_num)
  have h3 := scalar_checkers_spec 20 50 10 (by norm_num)
  exact ⟨h1.1.1.mpr (by norm_num),
         (h2.2.1.2.1).mpr ⟨by norm_num, by norm_num⟩,
         (h3.2.2.1.2.2.1).mpr (by norm_num)⟩

/-- C4: the disk checker buckets partitions with usage above `crit` into a
criticals list and those with usage strictly between `warn` and `crit` into a
warnings list, both preserving enumeration order; a non-empty criticals list
wins with text built from its first entry, else a non-empty warnings list
wins with its first entry, else the result is OK with text `Disks OK`. -/
theorem disk_checker_spec (warn crit : ℚ) (_hwc : warn < crit)
    (dd : List (String × ℚ)) :
    (∀ d, d ∈ disks_criticals crit dd ↔ d ∈ dd ∧ d.2 > crit) ∧
    (∀ d, d ∈ disks_warnings warn crit dd ↔
      d ∈ dd ∧ warn < d.2 ∧ d.2 < crit) ∧
    List.Sublist (disks_criticals crit dd) dd ∧
    List.Sublist (disks_warnings warn crit dd) dd ∧
    (∀ m u, first_disk_over crit dd = some (m, u) →
      check_disk_usage warn crit dd =
        Status.mk StatusCode.CRITICAL
          ("Disk " ++ m ++ ": " ++ toString u ++ "%")) ∧
    (∀ m u, first_disk_over crit dd = none →
      first_disk_between warn crit dd = some (m, u) →
      check_disk_usage warn crit dd =
        Status.mk StatusCode.WARNING
          ("Disk " ++ m ++ ": " ++ toString u ++ "%")) ∧
    (first_disk_over crit dd = none →
      first_disk_between warn crit dd = none →
      check_disk_usage warn crit dd = Status.mk StatusCode.OK "Disks OK") :=
  ⟨fun d => mem_disks_criticals crit dd d,
   fun d => mem_disks_warnings warn crit dd d,
   List.filter_sublist dd,
   List.filter_sublist dd,
   fun m u h => check_disk_usage_of_first_over warn crit dd m u h,
   fun m u h1 h2 => check_disk_usage_of_first_between warn crit dd m u h1 h2,
   fun h1 h2 => check_disk_usage_of_none_none warn crit dd h1 h2⟩

/-- Witness for `disk_checker_spec`: the spec's own test vector
`[(A, 95), (B, 50)]` with `warn=70`, `crit=90` gives CRITICAL
`Disk A: 95%`. -/
theorem disk_checker_spec_witness :
    check_disk_usage 70 90 [("A", 95), ("B", 50)] =
      Status.mk StatusCode.CRITICAL "Disk A: 95%" := by
  have h := disk_checker_spec 70 90 (by norm_num) [("A", 95), ("B", 50)]
  exact (h.2.2.2.2.1 "A" 95 (by decide)).trans (by decide)

/-- C7: on an empty partition list both buckets are empty and the disk
checker returns OK with text `Disks OK`; it does not produce UNKNOWN. -/
theorem disk_checker_empty (warn crit : ℚ) :
    disks_criticals crit [] = [] ∧
    disks_warnings warn crit [] = [] ∧
    check_disk_usage warn crit [] = Status.mk StatusCode.OK "Disks OK" ∧
    (check_disk_usage warn crit []).code ≠ StatusCode.UNKNOWN :=
  ⟨rfl, rfl, rfl, check_disk_code_ne_unknown warn crit []⟩

/-- C10 counterexample: with `warn=70 < crit=90`, the partition list
`[(A, 90), (B, 80)]` has every usage at most `crit` and one exactly equal to
`crit`, yet the checker returns WARNING `Disk B: 80%`, not OK `Disks OK`:
the claim as stated is false because a partition strictly between `warn` and
`crit` still lands in the warnings bucket. -/
theorem disk_at_crit_counterexample :
    (70 : ℚ) < 90 ∧
    (∀ d ∈ [(("A" : String), (90 : ℚ)), ("B", 80)], d.2 ≤ 90) ∧
    (∃ d ∈ [(("A" : String), (90 : ℚ)), ("B", 80)], d.2 = 90) ∧
    check_disk_usage 70 90 [(("A" : String), (90 : ℚ)), ("B", 80)] =
      Status.mk StatusCode.WARNING "Disk B: 80%" ∧
    check_disk_usage 70 90 [(("A" : String), (90 : ℚ)), ("B", 80)] ≠
      Status.mk StatusCode.OK "Disks OK" := by
  decide

/-- C10 as amended: if additionally no partition's usage lies strictly
between `warn` and `crit`, then a list whose usages are all at most `crit`,
with at least one exactly equal to `crit`, yields OK with text `Disks OK` —
a partition exactly at the critical threshold satisfies neither
`usage > crit` nor `usage < crit`, so it lands in neither bucket, unlike the
scalar checkers where `usage = crit` yields WARNING. -/
theorem disk_at_crit_amended (warn crit : ℚ) (dd : List (String × ℚ))
    (_hwc : warn < crit) (hall : ∀ d ∈ dd, d.2 ≤ crit)
    (hmid : ∀ d ∈ dd, ¬(warn < d.2 ∧ d.2 < crit))
    (_hex : ∃ d ∈ dd, d.2 = crit) :
    check_disk_usage warn crit dd = Status.mk StatusCode.OK "Disks OK" := by
  have hc : disks_criticals crit dd = [] := by
    rw [disks_criticals, List.filter_eq_nil_iff]
    intro d hd
    simp only [decide_eq_true_eq]
    exact not_lt.mpr (hall d hd)
  have hw : disks_warnings warn crit dd = [] := by
    rw [disks_warnings, List.filter_eq_nil_iff]
    intro d hd
    simp only [decide_eq_true_eq]
    exact hmid d hd
  unfold check_disk_usage
  rw [hc, hw]

/-- Witness for `disk_at_crit_amended` at `warn=70`, `crit=90`,
partitions `[(A, 90), (B, 50)]`. -/
theorem disk_at_crit_amended_witness :
    check_disk_usage 70 90 [(("A" : String), (90 : ℚ)), ("B", 50)] =
      Status.mk StatusCode.OK "Disks OK" :=
  disk_at_crit_amended 70 90 [("A", 90), ("B", 50)] (by norm_num)
    (by decide) (by decide) (by decide)

/-- C6: the compiled-in default thresholds are CPU 80/90, Memory 80/90,
Disk 70/90, Swap 20/50; the default color pairs are OK 17/190, WARNING 0/220,
CRITICAL 255/196; and each checker's warn/crit parameters default to its own
metric kind's pair. -/
theorem default_thresholds_and_colors :
    CPU_USAGE_WARN = 80 ∧ CPU_USAGE_CRIT = 90 ∧
    MEMORY_USAGE_WARN = 80 ∧ MEMORY_USAGE_CRIT = 90 ∧
    DISK_USAGE_WARN = 70 ∧ DISK_USAGE_CRIT = 90 ∧
    SWAP_USAGE_WARN = 20 ∧ SWAP_USAGE_CRIT = 50 ∧
    FG_COLOR_OK = 17 ∧ BG_COLOR_OK = 190 ∧
    FG_COLOR_WARN = 0 ∧ BG_COLOR_WARN = 220 ∧
    FG_COLOR_CRIT = 255 ∧ BG_COLOR_CRIT = 196 ∧
    (∀ usage : ℚ,
      check_cpu_usage_defaults usage = check_cpu_usage 80 90 usage) ∧
    (∀ usage : ℚ,
      check_memory_usage_defaults usage = check_memory_usage 80 90 usage) ∧
    (∀ dd : List (String × ℚ),
      check_disk_usage_defaults dd = check_disk_usage 70 90 dd) ∧
    (∀ usage : ℚ,
      check_swap_usage_defaults usage = check_swap_usage 20 50 usage) :=
  ⟨rfl, rfl, rfl, rfl, rfl, rfl, rfl, rfl, rfl, rfl, rfl, rfl, rfl, rfl,
   fun _ => rfl, fun _ => rfl, fun _ => rfl, fun _ => rfl⟩

/-- C8: for every input, each of the four checkers returns a Status whose
code is one of OK, WARNING, CRITICAL, and no Status produced in a run of
`main` carries the UNKNOWN severity. -/
theorem no_unknown_status (warn crit usage : ℚ) (dd : List (String × ℚ))
    (psutil : Psutil) :
    ((check_cpu_usage warn crit usage).code = StatusCode.OK ∨
     (check_cpu_usage warn crit usage).code = StatusCode.WARNING ∨
     (check_cpu_usage warn crit usage).code = StatusCode.CRITICAL) ∧
    ((check_memory_usage warn crit usage).code = StatusCode.OK ∨
     (check_memory_usage warn crit usage).code = StatusCode.WARNING ∨
     (check_memory_usage warn crit usage).code = StatusCode.CRITICAL) ∧
    ((check_swap_usage warn crit usage).code = StatusCode.OK ∨
     (check_swap_usage warn crit usage).code = StatusCode.WARNING ∨
     (check_swap_usage warn crit usage).code = StatusCode.CRITICAL) ∧
    ((check_disk_usage warn crit dd).code = StatusCode.OK ∨
     (check_disk_usage warn crit dd).code = StatusCode.WARNING ∨
     (check_disk_usage warn crit dd).code = StatusCode.CRITICAL) ∧
    (∀ s ∈ main_checks psutil, s.code ≠ StatusCode.UNKNOWN) := by
  refine ⟨?_, ?_, ?_, check_disk_code_cases warn crit dd, ?_⟩
  · rw [check_cpu_eq_tri]; exact triStatus_code_cases _ _ _ _
  · rw [check_memory_eq_tri]; exact triStatus_code_cases _ _ _ _
  · rw [check_swap_eq_tri]; exact triStatus_code_cases _ _ _ _
  · intro s hs
    simp only [main_checks, List.mem_cons, List.not_mem_nil, or_false] at hs
    rcases hs with rfl | rfl | rfl | rfl
    · rw [check_cpu_usage_defaults, check_cpu_eq_tri]
      exact triStatus_code_ne_unknown _ _ _ _
    · rw [check_memory_usage_defaults, check_memory_eq_tri]
      exact triStatus_code_ne_unknown _ _ _ _
    · exact check_disk_code_ne_unknown _ _ _
    · rw [check_swap_usage_defaults, check_swap_eq_tri]
      exact triStatus_code_ne_unknown _ _ _ _

/-- C2: given the four Status values of the checkers in invocation order
CPU, Memory, Disk, Swap, `main` chooses the text of the first CRITICAL
status with the CRITICAL colors if any status is CRITICAL; otherwise the
text of the first WARNING status with the WARNING colors if any is WARNING;
otherwise the literal text `OK` with the OK colors. -/
theorem main_selection_spec (s1 s2 s3 s4 : Status) :
    ((∃ s ∈ [s1, s2, s3, s4], s.code = StatusCode.CRITICAL) →
      ∃ t, first_text_with_code StatusCode.CRITICAL [s1, s2, s3, s4] =
          some t ∧
        main_select [s1, s2, s3, s4] = (BG_COLOR_CRIT, FG_COLOR_CRIT, t)) ∧
    ((¬ ∃ s ∈ [s1, s2, s3, s4], s.code = StatusCode.CRITICAL) →
      (∃ s ∈ [s1, s2, s3, s4], s.code = StatusCode.WARNING) →
      ∃ t, first_text_with_code StatusCode.WARNING [s1, s2, s3, s4] =
          some t ∧
        main_select [s1, s2, s3, s4] = (BG_COLOR_WARN, FG_COLOR_WARN, t)) ∧
    ((¬ ∃ s ∈ [s1, s2, s3, s4], s.code = StatusCode.CRITICAL) →
      (¬ ∃ s ∈ [s1, s2, s3, s4], s.code = StatusCode.WARNING) →
      main_select [s1, s2, s3, s4] = (BG_COLOR_OK, FG_COLOR_OK, "OK")) := by
  refine ⟨?_, ?_, ?_⟩
  · intro hc
    have hb : ([s1, s2, s3, s4].any
        (fun e => decide (e.code = StatusCode.CRITICAL))) = true :=
      (any_code_iff _ _).mpr hc
    cases hF : [s1, s2, s3, s4].filter
        (fun e => decide (e.code = StatusCode.CRITICAL)) with
    | nil =>
        obtain ⟨s, hs, hcode⟩ := hc
        have : s ∈ ([] : List Status) :=
          hF ▸ List.mem_filter.mpr ⟨hs, by simp [hcode]⟩
        simp at this
    | cons a l =>
        refine ⟨a.text, ?_, ?_⟩
        · rw [first_text_with_code_eq_head, hF]; rfl
        · simp only [main_select, hb, if_true]
          rw [hF]
          rfl
  · intro hc hw
    have hbc : ([s1, s2, s3, s4].any
        (fun e => decide (e.code = StatusCode.CRITICAL))) = false :=
      Bool.eq_false_iff.mpr (fun h => hc ((any_code_iff _ _).mp h))
    have hbw : ([s1, s2, s3, s4].any
        (fun e => decide (e.code = StatusCode.WARNING))) = true :=
      (any_code_iff _ _).mpr hw
    cases hF : [s1, s2, s3, s4].filter
        (fun e => decide (e.code = StatusCode.WARNING)) with
    | nil =>
        obtain ⟨s, hs, hcode⟩ := hw
        have : s ∈ ([] : List Status) :=
          hF ▸ List.mem_filter.mpr ⟨hs, by simp [hcode]⟩
        simp at this
    | cons a l =>
        refine ⟨a.text, ?_, ?_⟩
        · rw [first_text_with_code_eq_head, hF]; rfl
        · simp only [main_select, hbc, Bool.false_eq_true, if_false,
            hbw, if_true]
          rw [hF]
          rfl
  · intro hc hw
    have hbc : ([s1, s2, s3, s4].any
        (fun e => decide (e.code = StatusCode.CRITICAL))) = false :=
      Bool.eq_false_iff.mpr (fun h => hc ((any_code_iff _ _).mp h))
    have hbw : ([s1, s2, s3, s4].any
        (fun e => decide (e.code = StatusCode.WARNING))) = false :=
      Bool.eq_false_iff.mpr (fun h => hw ((any_code_iff _ _).mp h))
    simp only [main_select, hbc, hbw, Bool.false_eq_true, if_false]

/-- Witness for `main_selection_spec`: with CPU OK, Memory WARNING, Disk
CRITICAL, Swap OK, the CRITICAL branch applies. -/
theorem main_selection_spec_witness :
    ∃ t, first_text_with_code StatusCode.CRITICAL
        [Status.mk StatusCode.OK "CPU: 10%",
         Status.mk StatusCode.WARNING "Memory: 85%",
         Status.mk StatusCode.CRITICAL "Disk /: 95%",
         Status.mk StatusCode.OK "Swap: 0%"] = some t ∧
      main_select
        [Status.mk StatusCode.OK "CPU: 10%",
         Status.mk StatusCode.WARNING "Memory: 85%",
         Status.mk StatusCode.CRITICAL "Disk /: 95%",
         Status.mk StatusCode.OK "Swap: 0%"] =
        (BG_COLOR_CRIT, FG_COLOR_CRIT, t) :=
  (main_selection_spec
    (Status.mk StatusCode.OK "CPU: 10%")
    (Status.mk StatusCode.WARNING "Memory: 85%")
    (Status.mk StatusCode.CRITICAL "Disk /: 95%")
    (Status.mk StatusCode.OK "Swap: 0%")).1 (by decide)

/-- C5: the line printed by `main` is the same constant string for every
combination of sampled metrics — the `.format` call binds only to the final
placeholder-free literal, so the field names are printed unsubstituted and
any two runs produce identical output. -/
theorem output_line_constant :
    (∀ psutil : Psutil, main_line psutil = the_output_line) ∧
    (∀ p q : Psutil, main_line p = main_line q) :=
  ⟨fun _ => printed_line_const _ _ _,
   fun _ _ => (printed_line_const _ _ _).trans
     (printed_line_const _ _ _).symm⟩

/-- C1: the single line written to standard output is not the substituted
template documented by the spec.  On an all-OK run (all usages 0, no
partitions) the chosen colors are the OK pair (fg=17, bg=190) and the chosen
text is `OK`, yet the printed line is the constant unformatted string, which
differs from the spec's template instantiated at (17, 190, "OK"). -/
theorem spec_template_not_printed :
    main_run (Psutil.mk 0 0 0 []) = ([the_output_line], 0) ∧
    main_select (main_checks (Psutil.mk 0 0 0 [])) =
      (BG_COLOR_OK, FG_COLOR_OK, "OK") ∧
    main_line (Psutil.mk 0 0 0 []) ≠ spec_output_line 17 190 "OK" := by
  decide

/-- C9: provided the four collaborator queries return normally (so that the
sampled `Psutil` record exists), a run of `main` passes exactly one string
to `print` and the process exits with status 0. -/
theorem single_line_exit_zero (psutil : Psutil) :
    (main_run psutil).1 = [main_line psutil] ∧
    (main_run psutil).1.length = 1 ∧
    (main_run psutil).2 = 0 :=
  ⟨rfl, rfl, rfl⟩

end Applet
